import Mathlib

/-!
Verification of the Webex review dashboards (two Streamlit pages:
`Balloon_Dashboard.py` and `pages/In-Detailed Dashboard.py`).

The pure data transformations of both pages are embedded as executable
Lean definitions: sentiment classification, version-key extraction,
balloon geometry (radius, stick length, stick height, circle centre),
date-range filtering, the traceability projection and CSV export,
the Gantt aggregation, and feature-description splitting.

Review texts are strings; timestamps are integers (seconds), with
`Option` modelling values coerced to NaT by lenient date parsing;
scores and geometry are exact rationals.
-/

/-! ### Text utilities (Python `str.lower` and the `in` substring test) -/

/-- Lower-casing of a single character, as Python's `str.lower` acts on the
ASCII range (the only range the keyword lists exercise): an upper-case ASCII
letter moves down by 32 code points, everything else is unchanged. -/
def lowerChar (c : Char) : Char :=
  if 65 ≤ c.toNat ∧ c.toNat ≤ 90 then Char.ofNat (c.toNat + 32) else c

/-- Lower-casing of a whole string, character by character. -/
def lowerStr (s : String) : String := String.mk (s.data.map lowerChar)

/-- Round-trip of `Char.ofNat` on a valid code point. -/
theorem toNat_ofNat_valid (n : ℕ) (h : n.isValidChar) : (Char.ofNat n).toNat = n := by
  unfold Char.ofNat
  rw [dif_pos h]
  rfl

/-- Lower-casing never produces an upper-case ASCII letter. -/
theorem lowerChar_not_upper (c C : Char) (h1 : 65 ≤ C.toNat) (h2 : C.toNat ≤ 90) :
    lowerChar c ≠ C := by
  unfold lowerChar
  split
  · rename_i h
    intro heq
    have hv : Nat.isValidChar (c.toNat + 32) := Or.inl (by omega)
    have := congrArg Char.toNat heq
    rw [toNat_ofNat_valid _ hv] at this
    omega
  · rename_i h
    intro heq
    subst heq
    exact h ⟨h1, h2⟩

/-- Does the pattern `p` start the list `s`? -/
def subAt (p s : List Char) : Bool :=
  match p, s with
  | [], _ => true
  | _ :: _, [] => false
  | a :: ps, b :: ss => a == b && subAt ps ss

/-- Python's substring test `p in s`, on character lists: `p` occurs at some
position of `s`. -/
def hasSub (p s : List Char) : Bool :=
  match s with
  | [] => subAt p []
  | b :: ss => subAt p (b :: ss) || hasSub p ss

theorem subAt_iff (p s : List Char) : subAt p s = true ↔ ∃ t, s = p ++ t := by
  induction p generalizing s with
  | nil => simp [subAt]
  | cons a ps ih =>
    cases s with
    | nil => simp [subAt]
    | cons b ss =>
      simp only [subAt, Bool.and_eq_true, beq_iff_eq, ih]
      constructor
      · rintro ⟨rfl, t, rfl⟩
        exact ⟨t, rfl⟩
      · rintro ⟨t, ht⟩
        simp only [List.cons_append, List.cons.injEq] at ht
        exact ⟨ht.1.symm, t, ht.2⟩

theorem hasSub_iff (p s : List Char) : hasSub p s = true ↔ ∃ a b, s = a ++ p ++ b := by
  induction s with
  | nil =>
    simp only [hasSub, subAt_iff]
    constructor
    · rintro ⟨t, ht⟩
      exact ⟨[], t, ht⟩
    · rintro ⟨a, b, hab⟩
      have ha : a = [] := by
        cases a with
        | nil => rfl
        | cons x xs => simp at hab
      subst ha
      exact ⟨b, hab⟩
  | cons c cs ih =>
    simp only [hasSub, Bool.or_eq_true, subAt_iff, ih]
    constructor
    · rintro (⟨t, ht⟩ | ⟨a, b, hab⟩)
      · exact ⟨[], t, ht⟩
      · exact ⟨c :: a, b, by simp [hab]⟩
    · rintro ⟨a, b, hab⟩
      cases a with
      | nil => exact Or.inl ⟨b, by simpa using hab⟩
      | cons x xs =>
        simp only [List.cons_append, List.cons.injEq] at hab
        exact Or.inr ⟨xs, b, hab.2⟩

/-- The word `w` occurs as a contiguous substring of the string `t`. -/
def OccursIn (w t : String) : Prop := ∃ a b, t.data = a ++ w.data ++ b

/-- Executable form of the Python test `w in t`. -/
def containsWord (t w : String) : Bool := hasSub w.data t.data

theorem containsWord_iff (t w : String) : containsWord t w = true ↔ OccursIn w t :=
  hasSub_iff w.data t.data

/-! ### Sentiment classification (both pages) -/

/-- The three sentiment labels the dashboards produce. -/
inductive Sentiment where
  | Positive
  | Negative
  | Neutral
deriving DecidableEq, Repr

namespace Balloon

/-- Positive keyword list of `classify_sentiment` in `Balloon_Dashboard.py`
(line 26), in source order; note the mixed-case final entry. -/
def posWords : List String :=
  ["good", "great", "excellent", "love", "happy", "nice", "perfect", "clear", "easy", "Perfectoo"]

/-- Negative keyword list of `classify_sentiment` in `Balloon_Dashboard.py` (line 28). -/
def negWords : List String :=
  ["bad", "terrible", "hate", "issue", "problem", "poor", "worst"]

/-- The balloon page's `classify_sentiment` (lines 24-30): lower-case the
text, return Positive on any positive keyword hit, else Negative on any
negative keyword hit, else Neutral. -/
def classify_sentiment (text : String) : Sentiment :=
  let t := lowerStr text
  if posWords.any (fun w => containsWord t w) then Sentiment.Positive
  else if negWords.any (fun w => containsWord t w) then Sentiment.Negative
  else Sentiment.Neutral

/-- The same classifier with the unreachable keyword `"Perfectoo"` removed
from the positive list, for the equivalence claim. -/
def posWordsTrimmed : List String :=
  ["good", "great", "excellent", "love", "happy", "nice", "perfect", "clear", "easy"]

def classify_sentiment_trimmed (text : String) : Sentiment :=
  let t := lowerStr text
  if posWordsTrimmed.any (fun w => containsWord t w) then Sentiment.Positive
  else if negWords.any (fun w => containsWord t w) then Sentiment.Negative
  else Sentiment.Neutral

end Balloon

namespace Detailed

/-- Positive keyword list of `classify_sentiment` in
`pages/In-Detailed Dashboard.py` (line 47). -/
def posWords : List String := ["good", "great", "excellent", "love", "happy", "nice"]

/-- Negative keyword list of `classify_sentiment` in
`pages/In-Detailed Dashboard.py` (line 49). -/
def negWords : List String := ["bad", "terrible", "hate", "issue", "problem", "poor"]

/-- The In-Detailed page's `classify_sentiment` (lines 45-52). -/
def classify_sentiment (text : String) : Sentiment :=
  let t := lowerStr text
  if posWords.any (fun w => containsWord t w) then Sentiment.Positive
  else if negWords.any (fun w => containsWord t w) then Sentiment.Negative
  else Sentiment.Neutral

end Detailed

/-- Any-keyword hit as an existential, from the executable `List.any`. -/
theorem any_containsWord_iff (ws : List String) (t : String) :
    ws.any (fun w => containsWord t w) = true ↔ ∃ w ∈ ws, OccursIn w t := by
  simp only [List.any_eq_true, containsWord_iff]

/-! ### Version keys (both pages disagree here) -/

/-- Numeric value of a list of decimal digit characters (Python `int`). -/
def digitsToNat (l : List Char) : ℕ :=
  l.foldl (fun a c => 10 * a + (c.toNat - 48)) 0

/-- Maximal runs of decimal digits of a character list, left to right:
the semantics of Python's `re.findall(r'\d+', s)`. -/
def digitRuns : List Char → List (List Char)
  | [] => []
  | c :: cs =>
    let rest := digitRuns cs
    if c.isDigit then
      match cs with
      | c2 :: _ =>
        if c2.isDigit then
          match rest with
          | r :: rs => (c :: r) :: rs
          | [] => [[c]]
        else [c] :: rest
      | [] => [[c]]
    else rest

namespace Balloon

/-- The balloon page's `version_key` (lines 38-40): all embedded digit runs
read as integers, and `[0]` when the label has no digits. -/
def version_key (v : String) : List ℕ :=
  let nums := (digitRuns v.data).map digitsToNat
  if nums.isEmpty then [0] else nums

end Balloon

/-- Intermediate token of `re.split(r'(\d+)', s)`: a (possibly empty) gap of
non-digit characters, or a captured run of digits. -/
inductive RTok where
  | gap (s : List Char)
  | run (d : List Char)

/-- The full split of Python's `re.split(r'(\d+)', s)`: alternating non-digit
gaps (possibly empty, including at both ends) and captured digit runs. -/
def resplitDigits : List Char → List RTok
  | [] => [RTok.gap []]
  | c :: cs =>
    if c.isDigit then
      match resplitDigits cs with
      | RTok.gap [] :: RTok.run d :: ts => RTok.gap [] :: RTok.run (c :: d) :: ts
      | r => RTok.gap [] :: RTok.run [c] :: r
    else
      match resplitDigits cs with
      | RTok.gap s :: ts => RTok.gap (c :: s) :: ts
      | r => RTok.gap [c] :: r

/-- An element of the In-Detailed page's version key: `int(x)` for the digit
pieces, the piece itself for the rest. -/
inductive Tok where
  | str (s : String)
  | num (n : ℕ)
deriving DecidableEq, Repr

namespace Detailed

/-- The In-Detailed page's `version_key` (lines 26-29): `[]` for a missing
label (`pd.isna`), otherwise every piece of `re.split(r'(\d+)', str(v))`,
digit pieces converted to integers and the others kept as strings. -/
def version_key (v : Option String) : List Tok :=
  match v with
  | none => []
  | some s =>
    (resplitDigits s.data).map fun t =>
      match t with
      | RTok.gap cs => Tok.str (String.mk cs)
      | RTok.run d => Tok.num (digitsToNat d)

end Detailed

/-- Code-point comparison of two characters. -/
def charCmp (a b : Char) : Ordering := compare a.toNat b.toNat

/-- Lexicographic code-point comparison of two character lists, Python's
string comparison. -/
def strCmp : List Char → List Char → Ordering
  | [], [] => Ordering.eq
  | [], _ :: _ => Ordering.lt
  | _ :: _, [] => Ordering.gt
  | a :: as, b :: bs =>
    match charCmp a b with
    | Ordering.eq => strCmp as bs
    | o => o

/-- Comparison of two key elements as Python would compare them: numbers
with numbers, strings with strings, and `none` where Python's mixed-type
comparison raises `TypeError`. -/
def tokCmp : Tok → Tok → Option Ordering
  | Tok.num a, Tok.num b => some (compare a b)
  | Tok.str a, Tok.str b => some (strCmp a.data b.data)
  | _, _ => none

/-- Python's lexicographic comparison of two In-Detailed version keys
(shorter list first on a common prefix). -/
def keyCmp : List Tok → List Tok → Option Ordering
  | [], [] => some Ordering.eq
  | [], _ :: _ => some Ordering.lt
  | _ :: _, [] => some Ordering.gt
  | a :: as, b :: bs =>
    match tokCmp a b with
    | some Ordering.eq => keyCmp as bs
    | r => r

/-- Python's lexicographic comparison of two balloon-page version keys
(lists of integers). -/
def natKeyCmp : List ℕ → List ℕ → Ordering
  | [], [] => Ordering.eq
  | [], _ :: _ => Ordering.lt
  | _ :: _, [] => Ordering.gt
  | a :: as, b :: bs =>
    match compare a b with
    | Ordering.eq => natKeyCmp as bs
    | o => o

example : Balloon.version_key "v2.10.3" = [2, 10, 3] := by decide
example : Balloon.version_key "beta" = [0] := by decide
example : Detailed.version_key (some "v2.10.3") =
    [Tok.str "v", Tok.num 2, Tok.str ".", Tok.num 10, Tok.str ".", Tok.num 3, Tok.str ""] := by
  decide
example : Detailed.version_key (some "beta") = [Tok.str "beta"] := by decide
example : keyCmp (Detailed.version_key (some "v2.9")) (Detailed.version_key (some "v2.10")) =
    some Ordering.lt := by decide

/-! ### Balloon page geometry (lines 57-82) -/

namespace Balloon

/-- Lower end of the score domain (line 57). -/
def score_min : ℚ := 3.2

/-- Upper end of the score domain (line 58). -/
def score_max : ℚ := 5.0

/-- Smallest circle size in pixels (line 59). -/
def min_size : ℚ := 30

/-- Largest circle size in pixels (line 60). -/
def max_size : ℚ := 80

/-- Fixed pixel-to-data-unit conversion (line 61). -/
def pixel_to_data_ratio : ℚ := 2 / 600

/-- Normalised score position before clamping (line 76). -/
def score_norm (avg_score : ℚ) : ℚ := (avg_score - score_min) / (score_max - score_min)

/-- Clamping of the normalised score to `[0, 1]` (line 77):
Python `max(0, min(score_norm, 1))`. -/
def score_norm_clamped (avg_score : ℚ) : ℚ := max 0 (min (score_norm avg_score) 1)

/-- Circle radius in pixels (line 78). -/
def circle_pixel_radius (avg_score : ℚ) : ℚ :=
  min_size + score_norm_clamped avg_score * (max_size - min_size)

/-- Circle radius converted to data units (line 79). -/
def circle_data_radius (avg_score : ℚ) : ℚ :=
  (circle_pixel_radius avg_score / 2) * pixel_to_data_ratio

/-- Whole-day span between the earliest and latest timestamp of a bucket
(line 73): timestamps in seconds, `Timedelta.days` of the difference. -/
def durationDays (ts : List ℤ) : ℤ :=
  match ts with
  | [] => 0
  | t :: tr => (tr.foldl max t - tr.foldl min t) / 86400

/-- Scaled stick length (line 74): Python `max(duration_days / 15, 1.5)`,
with Python's true division. -/
def duration_scaled (duration_days : ℤ) : ℚ := max ((duration_days : ℚ) / 15) 1.5

/-- Visible stick height (line 81), as a function of the scaled duration and
the converted circle radius. -/
def stick_visible_height (ds cdr : ℚ) : ℚ := max (ds - cdr) 0.5

/-- Vertical centre of the circle (line 82). -/
def circle_y (ds cdr : ℚ) : ℚ := stick_visible_height ds cdr + cdr

/-! Feature description splitting (lines 139-147). -/

/-- Python `s.split('#')` on character lists. -/
def splitHash : List Char → List (List Char)
  | [] => [[]]
  | c :: cs =>
    match splitHash cs with
    | [] => [[c]]
    | x :: xs => if c = '#' then [] :: x :: xs else (c :: x) :: xs

/-- Python `s.strip()`: drop whitespace from both ends. -/
def pyStrip (l : List Char) : List Char :=
  ((l.dropWhile Char.isWhitespace).reverse.dropWhile Char.isWhitespace).reverse

/-- One entry's contribution (line 144): split on `'#'`, strip each piece,
keep the non-empty ones. -/
def featureSplit (entry : String) : List String :=
  (((splitHash entry.data).map pyStrip).filter (fun l => l ≠ [])).map String.mk

/-- String order by code points, Python's comparison for `sorted`. -/
def strLe (a b : String) : Prop := strCmp a.data b.data ≠ Ordering.gt

instance : DecidableRel strLe := fun _ _ => instDecidableNot

/-- The displayed feature list (lines 142-147): all pieces of all entries,
deduplicated (the Python `set`) and sorted alphabetically. -/
def feature_list (entries : List String) : List String :=
  List.insertionSort strLe ((entries.flatMap featureSplit).dedup)

end Balloon

example : Balloon.featureSplit "Login#Search # Export" = ["Login", "Search", "Export"] := by
  decide
example : Balloon.feature_list ["Login#Search # Export"] = ["Export", "Login", "Search"] := by
  decide
example : Balloon.circle_pixel_radius 4.1 = 55 := by
  unfold Balloon.circle_pixel_radius Balloon.score_norm_clamped Balloon.score_norm
    Balloon.score_min Balloon.score_max Balloon.min_size Balloon.max_size
  norm_num
example : Balloon.duration_scaled 30 = 2 := by
  unfold Balloon.duration_scaled
  norm_num
example : Balloon.durationDays [5, 5 + 30 * 86400] = 30 := by decide

/-! ### In-Detailed page: rows, date filter, traceability, Gantt -/

/-- One record of the merged traceability table, after date parsing.
Timestamps are integers (seconds); the review timestamp `at` is `none` when
lenient parsing (`errors='coerce'`) produced NaT. Fields the code never
treats as missing are modelled as plain values. -/
structure Row where
  «at» : Option ℤ
  releaseDate : ℤ
  releaseVersion : String
  content : String
  score : ℚ
  reviewCreatedVersion : String
  featureDescription : String
deriving DecidableEq, Repr

namespace Detailed

/-- The date-range test of lines 36-39. In pandas a comparison against NaT is
false, so a row whose `at` failed parsing never passes. -/
def dateInRange (t : Option ℤ) (lo hi : ℤ) : Bool :=
  match t with
  | none => false
  | some x => decide (lo ≤ x) && decide (x ≤ hi)

/-- The date-filtered frame `filtered_df` (lines 36-39). -/
def filtered_df (rows : List Row) (lo hi : ℤ) : List Row :=
  rows.filter (fun r => dateInRange r.«at» lo hi)

/-- One row of the traceability table (lines 76-78): the seven selected
columns, with the derived Sentiment. -/
structure TraceRow where
  «at» : Option ℤ
  content : String
  score : ℚ
  sentiment : Sentiment
  reviewCreatedVersion : String
  featureDescription : String
  releaseDate : ℤ
deriving DecidableEq, Repr

/-- Projection of one filtered row to the traceability table, with the
Sentiment column computed on its review text (lines 54 and 76-78). -/
def traceRow (r : Row) : TraceRow :=
  { «at» := r.«at»
    content := r.content
    score := r.score
    sentiment := classify_sentiment r.content
    reviewCreatedVersion := r.reviewCreatedVersion
    featureDescription := r.featureDescription
    releaseDate := r.releaseDate }

/-- The traceability table (lines 76-78), also the rows of the CSV download
of line 169 (`to_csv(index=False)` writes exactly these rows). -/
def traceability (rows : List Row) : List TraceRow := rows.map traceRow

/-- Column names of the frame the page reads, as referenced by its code. -/
def inputColumns : List String :=
  ["at", "Release Date", "Release Version", "content", "score",
   "reviewCreatedVersion", "Feature Description"]

/-- Column names selected for the traceability table (lines 76-78). -/
def traceabilityColumns : List String :=
  ["at", "content", "score", "Sentiment", "reviewCreatedVersion",
   "Feature Description", "Release Date"]

/-- Do two column lists name the same set of columns? -/
def sameElems (a b : List String) : Bool :=
  a.all (fun x => b.contains x) && b.all (fun x => a.contains x)

/-! Gantt aggregation (lines 133-145). -/

/-- One row of the Gantt aggregate. -/
structure GanttRow where
  releaseVersion : String
  start : ℤ
  endAt : Option ℤ
  description : String
  reviews : ℕ
deriving DecidableEq, Repr

/-- Minimum of a list of integers (the `'min'` aggregate; groups are never
empty, the default is unreachable). -/
def intMin (l : List ℤ) : ℤ :=
  match l with
  | [] => 0
  | x :: xs => xs.foldl min x

/-- Maximum of a list of optional integers, skipping missing values
(pandas `'max'` with `skipna`). -/
def optMax : List (Option ℤ) → Option ℤ
  | [] => none
  | none :: xs => optMax xs
  | some x :: xs =>
    match optMax xs with
    | none => some x
    | some y => some (max x y)

/-- The aggregate row for one release version (lines 134-141): minimum
release date, maximum review timestamp, first feature description,
review count. -/
def aggRow (v : String) (g : List Row) : GanttRow :=
  { releaseVersion := v
    start := intMin (g.map (fun r => r.releaseDate))
    endAt := optMax (g.map (fun r => r.«at»))
    description :=
      match g with
      | [] => ""
      | r :: _ => r.featureDescription
    reviews := g.length }

/-- The distinct release versions, in the sorted order `groupby` yields
(`sort=True` orders the group keys). -/
def versionsOf (rows : List Row) : List String :=
  List.insertionSort Balloon.strLe ((rows.map (fun r => r.releaseVersion)).dedup)

/-- The grouped aggregate before sorting by start date (lines 133-141). -/
def ganttPre (rows : List Row) : List GanttRow :=
  (versionsOf rows).map
    (fun v => aggRow v (rows.filter (fun r => r.releaseVersion == v)))

/-- The relation `sort_values("Start")` orders by. -/
def startLe (a b : GanttRow) : Prop := a.start ≤ b.start

instance : DecidableRel startLe := fun a b => Int.decLe a.start b.start

/-- The aggregate sorted by start date (line 145, before `head(20)`). -/
def ganttSorted (rows : List Row) : List GanttRow :=
  List.insertionSort startLe (ganttPre rows)

/-- The final Gantt frame `gantt_df` (line 145): the first 20 rows after
sorting by start date. -/
def gantt_df (rows : List Row) : List GanttRow := (ganttSorted rows).take 20

end Detailed

/-! ### Claim theorems -/

/-- C2, counterexample: the In-Detailed page's `version_key` does not map a
label to its digit runs alone, and a digitless label receives neither `[]`
nor `[0]`: `version_key "v2.10.3"` keeps the non-digit fragments, and
`version_key "beta"` is `["beta"]`. -/
theorem C2_version_key_counterexample :
    Detailed.version_key (some "v2.10.3") ≠ [Tok.num 2, Tok.num 10, Tok.num 3] ∧
    Detailed.version_key (some "beta") ≠ [] ∧
    Detailed.version_key (some "beta") ≠ [Tok.num 0] := by
  decide

/-- C2, amended: the balloon page's `version_key` extracts the digit runs as
integers with `[0]` for digitless labels; the In-Detailed page's
`version_key` maps only missing labels to `[]` and otherwise returns the
full `re.split` alternation of non-digit fragments (as strings, possibly
empty) and digit runs (as integers); under either key `"v2.9"` sorts before
`"v2.10"`. -/
theorem C2_version_key_amended :
    Balloon.version_key "v2.10.3" = [2, 10, 3] ∧
    Balloon.version_key "beta" = [0] ∧
    natKeyCmp (Balloon.version_key "v2.9") (Balloon.version_key "v2.10") = Ordering.lt ∧
    Detailed.version_key none = [] ∧
    Detailed.version_key (some "beta") = [Tok.str "beta"] ∧
    Detailed.version_key (some "v2.10.3") =
      [Tok.str "v", Tok.num 2, Tok.str ".", Tok.num 10, Tok.str ".", Tok.num 3, Tok.str ""] ∧
    keyCmp (Detailed.version_key (some "v2.9")) (Detailed.version_key (some "v2.10")) =
      some Ordering.lt := by
  decide

/-- C8: splitting `"Login#Search # Export"` on `'#'`, trimming, dropping
empty fragments, deduplicating and sorting yields exactly
`{"Login", "Search", "Export"}` (listed alphabetically), independently of
the fragment order. -/
theorem C8_feature_split :
    Balloon.featureSplit "Login#Search # Export" = ["Login", "Search", "Export"] ∧
    Balloon.feature_list ["Login#Search # Export"] = ["Export", "Login", "Search"] ∧
    Balloon.feature_list ["Search# Export #Login"] = ["Export", "Login", "Search"] ∧
    Balloon.feature_list [" Export ", "Login#Search", "Search"] =
      ["Export", "Login", "Search"] := by
  decide

/-- Radius as a closed formula, before resolving the clamp. -/
theorem circle_pixel_radius_eq (avg : ℚ) :
    Balloon.circle_pixel_radius avg =
      30 + max 0 (min ((avg - 3.2) / (5 - 3.2)) 1) * 50 := by
  unfold Balloon.circle_pixel_radius Balloon.score_norm_clamped Balloon.score_norm
    Balloon.score_min Balloon.score_max Balloon.min_size Balloon.max_size
  norm_num

/-- C3: the circle pixel radius is the linear image of the bucket's mean
score from the domain `[3.2, 5.0]` onto `[30, 80]`, clamped at the
endpoints: `3.2 ↦ 30`, `5.0 ↦ 80`, `4.1 ↦ 55`, anything below `3.2 ↦ 30`
and anything above `5.0 ↦ 80`. -/
theorem C3_circle_radius (avg : ℚ) :
    Balloon.circle_pixel_radius 3.2 = 30 ∧
    Balloon.circle_pixel_radius 5 = 80 ∧
    Balloon.circle_pixel_radius 4.1 = 55 ∧
    (avg ≤ 3.2 → Balloon.circle_pixel_radius avg = 30) ∧
    (5 ≤ avg → Balloon.circle_pixel_radius avg = 80) ∧
    (3.2 ≤ avg → avg ≤ 5 →
      Balloon.circle_pixel_radius avg = 30 + (avg - 3.2) / (5 - 3.2) * (80 - 30)) := by
  have hform := circle_pixel_radius_eq
  refine ⟨?_, ?_, ?_, ?_, ?_, ?_⟩
  · rw [hform]; norm_num
  · rw [hform]; norm_num
  · rw [hform]; norm_num
  · intro h
    rw [hform]
    have hnum : (avg - 3.2) / (5 - 3.2) ≤ 0 := by
      apply div_nonpos_iff.mpr
      right
      constructor <;> linarith
    rw [min_eq_left (by linarith : (avg - 3.2) / (5 - 3.2) ≤ 1)]
    rw [max_eq_left hnum]
    ring
  · intro h
    rw [hform]
    have hnum : (1 : ℚ) ≤ (avg - 3.2) / (5 - 3.2) := by
      rw [le_div_iff₀ (by norm_num : (0:ℚ) < 5 - 3.2)]
      linarith
    rw [min_eq_right hnum]
    norm_num
  · intro h1 h2
    rw [hform]
    have h0 : (0 : ℚ) ≤ (avg - 3.2) / (5 - 3.2) := by
      apply div_nonneg <;> linarith
    have hle1 : (avg - 3.2) / (5 - 3.2) ≤ 1 := by
      rw [div_le_one (by norm_num : (0:ℚ) < 5 - 3.2)]
      linarith
    rw [min_eq_left hle1, max_eq_right h0]
    ring

/-- C3, witness: the clamped branches at mean scores 2, 6 and 4. -/
theorem C3_circle_radius_witness :
    ((2 : ℚ) ≤ 3.2 ∧ Balloon.circle_pixel_radius 2 = 30) ∧
    ((5 : ℚ) ≤ 6 ∧ Balloon.circle_pixel_radius 6 = 80) ∧
    ((3.2 : ℚ) ≤ 4 ∧ (4 : ℚ) ≤ 5 ∧
      Balloon.circle_pixel_radius 4 = 30 + ((4 : ℚ) - 3.2) / (5 - 3.2) * (80 - 30)) :=
  ⟨⟨by norm_num, (C3_circle_radius 2).2.2.2.1 (by norm_num)⟩,
   ⟨by norm_num, (C3_circle_radius 6).2.2.2.2.1 (by norm_num)⟩,
   ⟨by norm_num, by norm_num,
    (C3_circle_radius 4).2.2.2.2.2 (by norm_num) (by norm_num)⟩⟩

/-- C4: the scaled stick length is `max(duration_days / 15, 1.5)` over the
whole-day span of the bucket's timestamps; a 0-day span yields 1.5 and a
30-day span yields 2.0. -/
theorem C4_duration_scaled (t : ℤ) (d : ℤ) :
    Balloon.duration_scaled 0 = 1.5 ∧
    Balloon.duration_scaled 30 = 2 ∧
    Balloon.durationDays [t, t] = 0 ∧
    Balloon.durationDays [t, t + 30 * 86400] = 30 ∧
    Balloon.duration_scaled (Balloon.durationDays [t, t]) = 1.5 ∧
    Balloon.duration_scaled (Balloon.durationDays [t, t + 30 * 86400]) = 2 ∧
    Balloon.duration_scaled d = max ((d : ℚ) / 15) 1.5 := by
  have h0 : Balloon.durationDays [t, t] = 0 := by
    unfold Balloon.durationDays
    simp
  have h30 : Balloon.durationDays [t, t + 30 * 86400] = 30 := by
    unfold Balloon.durationDays
    simp only [List.foldl]
    rw [max_eq_right (by linarith : t ≤ t + 30 * 86400),
      min_eq_left (by linarith : t ≤ t + 30 * 86400)]
    norm_num
  have hs0 : Balloon.duration_scaled 0 = 1.5 := by
    unfold Balloon.duration_scaled
    rw [max_eq_right]
    norm_num
  have hs30 : Balloon.duration_scaled 30 = 2 := by
    unfold Balloon.duration_scaled
    rw [max_eq_left] <;> norm_num
  refine ⟨hs0, hs30, h0, h30, ?_, ?_, rfl⟩
  · rw [h0, hs0]
  · rw [h30, hs30]

/-- C4, witness: the theorem instantiated at a concrete epoch. -/
theorem C4_duration_scaled_witness :
    Balloon.duration_scaled (Balloon.durationDays [1000, 1000]) = 1.5 ∧
    Balloon.duration_scaled (Balloon.durationDays [1000, 1000 + 30 * 86400]) = 2 :=
  ⟨(C4_duration_scaled 1000 0).2.2.2.2.1, (C4_duration_scaled 1000 0).2.2.2.2.2.1⟩

/-- C10: the visible stick height is `max(scaled duration − converted
radius, 0.5)`, hence never below `0.5` — also after composing with the
actual scaled duration and converted radius — the floor is reached whenever
the converted radius exceeds the scaled duration, and the circle's vertical
centre is the stick height plus the converted radius. -/
theorem C10_stick_height (ds cdr : ℚ) (d : ℤ) (avg : ℚ) :
    Balloon.stick_visible_height ds cdr = max (ds - cdr) 0.5 ∧
    (0.5 : ℚ) ≤ Balloon.stick_visible_height ds cdr ∧
    Balloon.circle_y ds cdr = Balloon.stick_visible_height ds cdr + cdr ∧
    (ds < cdr → Balloon.stick_visible_height ds cdr = 0.5) ∧
    (0.5 : ℚ) ≤
      Balloon.stick_visible_height (Balloon.duration_scaled d) (Balloon.circle_data_radius avg) := by
  refine ⟨rfl, le_max_right _ _, rfl, ?_, le_max_right _ _⟩
  intro h
  unfold Balloon.stick_visible_height
  rw [max_eq_right (by linarith : ds - cdr ≤ 0.5)]

/-- C10, witness: a converted radius larger than the scaled duration pins
the stick height to the floor. -/
theorem C10_stick_height_witness :
    (1 : ℚ) < 2 ∧ Balloon.stick_visible_height 1 2 = 0.5 ∧
    (0.5 : ℚ) ≤
      Balloon.stick_visible_height (Balloon.duration_scaled 45) (Balloon.circle_data_radius 4) :=
  ⟨by norm_num, (C10_stick_height 1 2 0 0).2.2.2.1 (by norm_num),
   (C10_stick_height 1 2 45 4).2.2.2.2⟩

/-- A failed `List.any` refutes the corresponding existential. -/
theorem not_any_occurs (ws : List String) (t : String)
    (h : ws.any (fun w => containsWord t w) = false) : ¬ ∃ w ∈ ws, OccursIn w t := by
  intro hex
  rw [(any_containsWord_iff ws t).mpr hex] at h
  exact Bool.noConfusion h

/-- C1: on either page, the classifier lower-cases the text and returns
Positive as soon as any positive keyword occurs as a substring — even in the
presence of negative keywords — else Negative on any negative keyword, else
Neutral. -/
theorem C1_classify_first_match (text : String) :
    ((∃ w ∈ Balloon.posWords, OccursIn w (lowerStr text)) →
      Balloon.classify_sentiment text = Sentiment.Positive) ∧
    ((¬ ∃ w ∈ Balloon.posWords, OccursIn w (lowerStr text)) →
      (∃ w ∈ Balloon.negWords, OccursIn w (lowerStr text)) →
      Balloon.classify_sentiment text = Sentiment.Negative) ∧
    ((¬ ∃ w ∈ Balloon.posWords, OccursIn w (lowerStr text)) →
      (¬ ∃ w ∈ Balloon.negWords, OccursIn w (lowerStr text)) →
      Balloon.classify_sentiment text = Sentiment.Neutral) ∧
    ((∃ w ∈ Detailed.posWords, OccursIn w (lowerStr text)) →
      Detailed.classify_sentiment text = Sentiment.Positive) ∧
    ((¬ ∃ w ∈ Detailed.posWords, OccursIn w (lowerStr text)) →
      (∃ w ∈ Detailed.negWords, OccursIn w (lowerStr text)) →
      Detailed.classify_sentiment text = Sentiment.Negative) ∧
    ((¬ ∃ w ∈ Detailed.posWords, OccursIn w (lowerStr text)) →
      (¬ ∃ w ∈ Detailed.negWords, OccursIn w (lowerStr text)) →
      Detailed.classify_sentiment text = Sentiment.Neutral) := by
  refine ⟨?_, ?_, ?_, ?_, ?_, ?_⟩
  · intro h
    have hb := (any_containsWord_iff Balloon.posWords (lowerStr text)).mpr h
    simp [Balloon.classify_sentiment, hb]
  · intro hnp hn
    have hbp : Balloon.posWords.any (fun w => containsWord (lowerStr text) w) = false :=
      Bool.eq_false_iff.mpr
        (fun hc => hnp ((any_containsWord_iff Balloon.posWords (lowerStr text)).mp hc))
    have hbn := (any_containsWord_iff Balloon.negWords (lowerStr text)).mpr hn
    simp [Balloon.classify_sentiment, hbp, hbn]
  · intro hnp hnn
    have hbp : Balloon.posWords.any (fun w => containsWord (lowerStr text) w) = false :=
      Bool.eq_false_iff.mpr
        (fun hc => hnp ((any_containsWord_iff Balloon.posWords (lowerStr text)).mp hc))
    have hbn : Balloon.negWords.any (fun w => containsWord (lowerStr text) w) = false :=
      Bool.eq_false_iff.mpr
        (fun hc => hnn ((any_containsWord_iff Balloon.negWords (lowerStr text)).mp hc))
    simp [Balloon.classify_sentiment, hbp, hbn]
  · intro h
    have hb := (any_containsWord_iff Detailed.posWords (lowerStr text)).mpr h
    simp [Detailed.classify_sentiment, hb]
  · intro hnp hn
    have hbp : Detailed.posWords.any (fun w => containsWord (lowerStr text) w) = false :=
      Bool.eq_false_iff.mpr
        (fun hc => hnp ((any_containsWord_iff Detailed.posWords (lowerStr text)).mp hc))
    have hbn := (any_containsWord_iff Detailed.negWords (lowerStr text)).mpr hn
    simp [Detailed.classify_sentiment, hbp, hbn]
  · intro hnp hnn
    have hbp : Detailed.posWords.any (fun w => containsWord (lowerStr text) w) = false :=
      Bool.eq_false_iff.mpr
        (fun hc => hnp ((any_containsWord_iff Detailed.posWords (lowerStr text)).mp hc))
    have hbn : Detailed.negWords.any (fun w => containsWord (lowerStr text) w) = false :=
      Bool.eq_false_iff.mpr
        (fun hc => hnn ((any_containsWord_iff Detailed.negWords (lowerStr text)).mp hc))
    simp [Detailed.classify_sentiment, hbp, hbn]

/-- C1, witness: a text with both a positive and a negative keyword is
Positive on both pages; one with only a negative keyword is Negative; one
with neither is Neutral. -/
theorem C1_classify_first_match_witness :
    Balloon.classify_sentiment "Good but bad" = Sentiment.Positive ∧
    Balloon.classify_sentiment "Terrible app" = Sentiment.Negative ∧
    Balloon.classify_sentiment "meh okay" = Sentiment.Neutral ∧
    Detailed.classify_sentiment "Good but bad" = Sentiment.Positive ∧
    Detailed.classify_sentiment "Terrible app" = Sentiment.Negative ∧
    Detailed.classify_sentiment "meh okay" = Sentiment.Neutral :=
  ⟨(C1_classify_first_match "Good but bad").1
      ⟨"good", by decide, ⟨[], " but bad".data, by decide⟩⟩,
   (C1_classify_first_match "Terrible app").2.1
      (not_any_occurs _ _ (by decide))
      ⟨"terrible", by decide, ⟨[], " app".data, by decide⟩⟩,
   (C1_classify_first_match "meh okay").2.2.1
      (not_any_occurs _ _ (by decide)) (not_any_occurs _ _ (by decide)),
   (C1_classify_first_match "Good but bad").2.2.2.1
      ⟨"good", by decide, ⟨[], " but bad".data, by decide⟩⟩,
   (C1_classify_first_match "Terrible app").2.2.2.2.1
      (not_any_occurs _ _ (by decide))
      ⟨"terrible", by decide, ⟨[], " app".data, by decide⟩⟩,
   (C1_classify_first_match "meh okay").2.2.2.2.2
      (not_any_occurs _ _ (by decide)) (not_any_occurs _ _ (by decide))⟩

/-- C9: the balloon classifier is extensionally unchanged by removing the
keyword `"Perfectoo"`: the lower-cased text can never contain an upper-case
`P`, so that keyword never matches. -/
theorem C9_perfectoo_redundant (text : String) :
    Balloon.classify_sentiment text = Balloon.classify_sentiment_trimmed text := by
  have hP : containsWord (lowerStr text) "Perfectoo" = false := by
    apply Bool.eq_false_iff.mpr
    intro h
    obtain ⟨a, b, hab⟩ := (containsWord_iff _ _).mp h
    have hPin : 'P' ∈ "Perfectoo".data := by decide
    have hmem : 'P' ∈ (lowerStr text).data := by
      rw [hab]
      exact List.mem_append.mpr (Or.inl (List.mem_append.mpr (Or.inr hPin)))
    obtain ⟨c, _, hc⟩ := List.mem_map.mp (by simpa [lowerStr] using hmem)
    exact lowerChar_not_upper c 'P' (by decide) (by decide) hc
  have hlist : Balloon.posWords = Balloon.posWordsTrimmed ++ ["Perfectoo"] := rfl
  simp only [Balloon.classify_sentiment, Balloon.classify_sentiment_trimmed, hlist,
    List.any_append, List.any_cons, List.any_nil, hP, Bool.or_false]

/-- C5: the date-range filter keeps exactly the rows whose review timestamp
lies in the selected inclusive range, and a row whose date was coerced to
the missing-value marker is silently excluded from every date-filtered
result. -/
theorem C5_date_filter (rows : List Row) (lo hi : ℤ) (r : Row) :
    (r ∈ Detailed.filtered_df rows lo hi ↔
      r ∈ rows ∧ ∃ x, r.«at» = some x ∧ lo ≤ x ∧ x ≤ hi) ∧
    (r.«at» = none → r ∉ Detailed.filtered_df rows lo hi) := by
  constructor
  · rw [Detailed.filtered_df, List.mem_filter]
    constructor
    · rintro ⟨hr, hd⟩
      refine ⟨hr, ?_⟩
      cases hat : r.«at» with
      | none =>
        rw [hat] at hd
        simp only [Detailed.dateInRange] at hd
        exact Bool.noConfusion hd
      | some x =>
        rw [hat] at hd
        simp only [Detailed.dateInRange, Bool.and_eq_true, decide_eq_true_eq] at hd
        exact ⟨x, rfl, hd.1, hd.2⟩
    · rintro ⟨hr, x, hat, h1, h2⟩
      refine ⟨hr, ?_⟩
      rw [hat]
      simp [Detailed.dateInRange, h1, h2]
  · intro hnone hmem
    rw [Detailed.filtered_df, List.mem_filter] at hmem
    rw [hnone] at hmem
    simp only [Detailed.dateInRange, Bool.false_eq_true, and_false] at hmem

/-- A sample row inside the date range `[0, 10]`. -/
def sampleRowIn : Row :=
  { «at» := some 5, releaseDate := 0, releaseVersion := "v1", content := "good app",
    score := 4, reviewCreatedVersion := "v1", featureDescription := "Login" }

/-- A sample row whose review date failed parsing (coerced to NaT). -/
def sampleRowNaT : Row :=
  { «at» := none, releaseDate := 0, releaseVersion := "v1", content := "bad app",
    score := 1, reviewCreatedVersion := "v1", featureDescription := "Search" }

/-- C5, witness: the in-range row passes the filter, the NaT row is dropped. -/
theorem C5_date_filter_witness :
    sampleRowIn ∈ Detailed.filtered_df [sampleRowIn, sampleRowNaT] 0 10 ∧
    sampleRowNaT ∉ Detailed.filtered_df [sampleRowIn, sampleRowNaT] 0 10 :=
  ⟨(C5_date_filter [sampleRowIn, sampleRowNaT] 0 10 sampleRowIn).1.mpr
      ⟨List.mem_cons_self _ _, 5, rfl, by norm_num, by norm_num⟩,
   (C5_date_filter [sampleRowIn, sampleRowNaT] 0 10 sampleRowNaT).2 rfl⟩

/-- C7, counterexample: the traceability columns are not the input columns
minus the raw '#'-delimited feature column plus Sentiment: that column
(`Feature Description`) is retained in the output, and what is dropped is
`Release Version`, a different input column. -/
theorem C7_columns_counterexample :
    Detailed.sameElems Detailed.traceabilityColumns
      ((Detailed.inputColumns.erase "Feature Description") ++ ["Sentiment"]) = false ∧
    "Feature Description" ∈ Detailed.traceabilityColumns ∧
    "Release Version" ∈ Detailed.inputColumns ∧
    "Release Version" ∉ Detailed.traceabilityColumns := by
  decide

/-- C7, amended: the CSV download holds exactly the filtered rows, each with
a Sentiment column equal to the classifier's output on its review text; its
columns are the seven selected ones — the referenced input columns minus
`Release Version` plus the derived `Sentiment`, the raw `Feature
Description` retained. -/
theorem C7_csv_export (rows : List Row) (lo hi : ℤ) :
    (Detailed.traceability (Detailed.filtered_df rows lo hi)).length
      = (Detailed.filtered_df rows lo hi).length ∧
    (∀ tr ∈ Detailed.traceability (Detailed.filtered_df rows lo hi),
      ∃ r ∈ rows, Detailed.dateInRange r.«at» lo hi = true ∧
        tr = Detailed.traceRow r ∧ tr.sentiment = Detailed.classify_sentiment r.content) ∧
    (∀ r ∈ rows, Detailed.dateInRange r.«at» lo hi = true →
      Detailed.traceRow r ∈ Detailed.traceability (Detailed.filtered_df rows lo hi)) ∧
    Detailed.sameElems Detailed.traceabilityColumns
      ((Detailed.inputColumns.erase "Release Version") ++ ["Sentiment"]) = true := by
  refine ⟨List.length_map _ _, ?_, ?_, by decide⟩
  · intro tr htr
    obtain ⟨r, hrf, rfl⟩ := List.mem_map.mp htr
    obtain ⟨hr, hd⟩ := List.mem_filter.mp hrf
    exact ⟨r, hr, hd, rfl, rfl⟩
  · intro r hr hd
    exact List.mem_map_of_mem _ (List.mem_filter.mpr ⟨hr, hd⟩)

/-- C7, witness: the projected sample row appears in the CSV of the filtered
sample table. -/
theorem C7_csv_export_witness :
    Detailed.traceRow sampleRowIn ∈
      Detailed.traceability (Detailed.filtered_df [sampleRowIn, sampleRowNaT] 0 10) :=
  (C7_csv_export [sampleRowIn, sampleRowNaT] 0 10).2.2.1 sampleRowIn
    (List.mem_cons_self _ _) (by decide)

/-- Membership in the sorted aggregate is membership in the grouped
aggregate. -/
theorem mem_ganttSorted (rows : List Row) (g : Detailed.GanttRow) :
    g ∈ Detailed.ganttSorted rows ↔ g ∈ Detailed.ganttPre rows :=
  (List.perm_insertionSort _ _).mem_iff

/-- Every grouped aggregate row is the aggregate of its own version's rows. -/
theorem ganttPre_spec (rows : List Row) (g : Detailed.GanttRow)
    (hg : g ∈ Detailed.ganttPre rows) :
    g.releaseVersion ∈ Detailed.versionsOf rows ∧
    g = Detailed.aggRow g.releaseVersion
          (rows.filter (fun r => r.releaseVersion == g.releaseVersion)) := by
  obtain ⟨v, hv, rfl⟩ := List.mem_map.mp hg
  exact ⟨hv, rfl⟩

/-- The group keys of the grouped aggregate are exactly the sorted distinct
versions. -/
theorem ganttPre_versions (rows : List Row) :
    (Detailed.ganttPre rows).map (fun g => g.releaseVersion) = Detailed.versionsOf rows := by
  rw [Detailed.ganttPre, List.map_map]
  exact List.map_id _

/-- The distinct version list has no duplicates. -/
theorem versionsOf_nodup (rows : List Row) : (Detailed.versionsOf rows).Nodup :=
  (List.perm_insertionSort _ _).nodup_iff.mpr (List.nodup_dedup _)

/-- C6: the Gantt aggregate has at most 20 rows, one per release version
carrying that version's aggregates (minimum release date, maximum review
timestamp, first feature description, review count); every kept row starts
no later than every dropped row; and when at most 20 versions exist, all of
them are kept. -/
theorem C6_gantt_cap (rows : List Row) :
    (Detailed.gantt_df rows).length ≤ 20 ∧
    (∀ g ∈ Detailed.gantt_df rows,
      g.releaseVersion ∈ Detailed.versionsOf rows ∧
      g = Detailed.aggRow g.releaseVersion
            (rows.filter (fun r => r.releaseVersion == g.releaseVersion))) ∧
    ((Detailed.gantt_df rows).map (fun g => g.releaseVersion)).Nodup ∧
    (∀ a ∈ Detailed.gantt_df rows, ∀ b ∈ (Detailed.ganttSorted rows).drop 20,
      a.start ≤ b.start) ∧
    ((Detailed.versionsOf rows).length ≤ 20 →
      (Detailed.gantt_df rows).length = (Detailed.versionsOf rows).length ∧
      ∀ v ∈ Detailed.versionsOf rows,
        ∃ g ∈ Detailed.gantt_df rows, g.releaseVersion = v) := by
  have hlen : (Detailed.ganttSorted rows).length = (Detailed.versionsOf rows).length := by
    rw [Detailed.ganttSorted, (List.perm_insertionSort _ _).length_eq]
    rw [Detailed.ganttPre, List.length_map]
  refine ⟨?_, ?_, ?_, ?_, ?_⟩
  · rw [Detailed.gantt_df, List.length_take]
    exact min_le_left _ _
  · intro g hg
    exact ganttPre_spec rows g
      ((mem_ganttSorted rows g).mp (List.mem_of_mem_take hg))
  · have hmap : List.Perm ((Detailed.ganttSorted rows).map (fun g => g.releaseVersion))
        (Detailed.versionsOf rows) := by
      rw [← ganttPre_versions rows]
      exact (List.perm_insertionSort _ _).map _
    have hnd : ((Detailed.ganttSorted rows).map (fun g => g.releaseVersion)).Nodup :=
      hmap.nodup_iff.mpr (versionsOf_nodup rows)
    rw [Detailed.gantt_df, List.map_take]
    exact List.Nodup.sublist (List.take_sublist 20 _) hnd
  · haveI : IsTotal Detailed.GanttRow Detailed.startLe := ⟨fun a b => le_total a.start b.start⟩
    haveI : IsTrans Detailed.GanttRow Detailed.startLe := ⟨fun _ _ _ => le_trans⟩
    have hsort : List.Sorted Detailed.startLe (Detailed.ganttSorted rows) :=
      List.sorted_insertionSort Detailed.startLe (Detailed.ganttPre rows)
    rw [← List.take_append_drop 20 (Detailed.ganttSorted rows)] at hsort
    exact (List.pairwise_append.mp hsort).2.2
  · intro h20
    have htake : Detailed.gantt_df rows = Detailed.ganttSorted rows := by
      rw [Detailed.gantt_df]
      exact List.take_of_length_le (by omega)
    refine ⟨by rw [htake, hlen], ?_⟩
    intro v hv
    refine ⟨Detailed.aggRow v (rows.filter (fun r => r.releaseVersion == v)), ?_, rfl⟩
    rw [htake, mem_ganttSorted]
    exact List.mem_map_of_mem _ hv

/-- One sample row per release version, versions `"A"` to `"U"`, with release
dates increasing alphabetically. -/
def bigRow (i : ℕ) : Row :=
  { «at» := some (i : ℤ), releaseDate := (i : ℤ),
    releaseVersion := String.mk [Char.ofNat (65 + i)], content := "ok", score := 4,
    reviewCreatedVersion := "v", featureDescription := "F" }

/-- A sample table with 21 distinct release versions. -/
def bigRows : List Row := (List.range 21).map bigRow

/-- C6, witness: on the 21-version sample the cap keeps 20 rows, a kept row
starts no later than the dropped one, and on the 1-version sample everything
is kept. -/
theorem C6_gantt_cap_witness :
    (Detailed.gantt_df bigRows).length ≤ 20 ∧
    (Detailed.aggRow "A" (bigRows.filter (fun r => r.releaseVersion == "A"))).start ≤
      (Detailed.aggRow "U" (bigRows.filter (fun r => r.releaseVersion == "U"))).start ∧
    (Detailed.gantt_df [sampleRowIn, sampleRowNaT]).length = 1 :=
  ⟨(C6_gantt_cap bigRows).1,
   (C6_gantt_cap bigRows).2.2.2.1 _ (by decide) _ (by decide),
   ((C6_gantt_cap [sampleRowIn, sampleRowNaT]).2.2.2.2 (by decide)).1.trans (by decide)⟩
